import Mathlib

/-!
Verification development for the concrete-core-api calculation engine.

The repository contains two lineage versions of the calculator module:
the current one (with Schmidt-hammer and pull-off support, a coring
direction factor, nearest-standard-diameter snapping for the Fg lookup
and a simplified division-by-10 kg/cm2-to-MPa conversion) and a legacy
one (density-based final formula, continuous diameter clamping for the
Fg lookup and the exact 0.0980665 conversion).  The current version is
embedded in namespace `Calculator`, the legacy version in namespace
`Legacy`; functions whose source text is identical in both versions are
defined once at the top level.

All JavaScript numbers are modelled as rationals; `Math.sqrt` and
`Math.PI` (which have no exact rational counterpart) are passed in as
explicit parameters `sq` and `pim` wherever the source uses them, so
every definition stays executable and the statements quantify over them.
-/

namespace ConcreteCore

/-- Aggregate moisture condition of a core sample (the `AggregateCondition`
union type of the source). -/
inductive AggregateCondition
  | dry
  | natural
  | saturated
deriving DecidableEq

/-- L/D ratio correction factor table (`LD_CORRECTION_TABLE`): pairs of
(ldRatio, correctionFactor). -/
def LD_CORRECTION_TABLE : List (ℚ × ℚ) :=
  [(1.5, 1.07), (2.0, 1.05), (2.5, 1.04), (3.0, 1.03), (3.5, 1.02)]

/-- Moisture condition correction factors (`MOISTURE_CORRECTION_TABLE`). -/
def MOISTURE_CORRECTION_TABLE : List (AggregateCondition × ℚ) :=
  [(.dry, 0.96), (.natural, 1.00), (.saturated, 1.05)]

/-- Strength breakpoints of the Fg grid (`FG_STRENGTH_POINTS`), in MPa. -/
def FG_STRENGTH_POINTS : List ℚ := [15, 20, 25, 30, 35]

/-- Diameter breakpoints of the Fg grid (`FG_DIAMETER_POINTS`), in mm. -/
def FG_DIAMETER_POINTS : List ℚ := [50, 75, 100, 125, 150]

/-- The Fg cutting-correction grid (`FG_TABLE`): for each standard diameter,
the row of Fg values at strengths 15, 20, 25, 30, 35 MPa.  The source is a
`Record<number, number[]>`; it is embedded as the corresponding key-indexed
function. -/
def FG_TABLE (diameter : ℚ) : List ℚ :=
  if diameter = 50 then [1.18, 1.15, 1.14, 1.11, 1.08]
  else if diameter = 75 then [1.15, 1.13, 1.11, 1.09, 1.07]
  else if diameter = 100 then [1.12, 1.10, 1.08, 1.07, 1.06]
  else if diameter = 125 then [1.09, 1.07, 1.06, 1.05, 1.04]
  else if diameter = 150 then [1.07, 1.05, 1.04, 1.03, 1.02]
  else []

/-- Linear interpolation helper (`linearInterpolate`). -/
def linearInterpolate (x x1 x2 y1 y2 : ℚ) : ℚ :=
  y1 + (x - x1) * (y2 - y1) / (x2 - x1)

/-- The interval-finding loop shared by both Fg lookups: scan the indices
`i` in order and return the first with `points[i] <= x <= points[i+1]`;
the accumulator keeps its initial value 0 when no interval matches. -/
def findLowerIdxLoop (points : List ℚ) (x : ℚ) : List ℕ → ℕ
  | [] => 0
  | i :: rest =>
    if points.getD i 0 ≤ x ∧ x ≤ points.getD (i + 1) 0 then i
    else findLowerIdxLoop points x rest

/-- The complete lower-index computation of the Fg lookups: the scanning
loop over `i = 0 .. points.length - 2` followed by the unconditional
override `if (x >= points[last]) idx = points.length - 2`. -/
def findLowerIdx (points : List ℚ) (x : ℚ) : ℕ :=
  let loopResult := findLowerIdxLoop points x (List.range (points.length - 1))
  if points.getD (points.length - 1) 0 ≤ x then points.length - 2 else loopResult

/-- Rounds to the nearest standard core diameter (current version's
`roundToNearestStandardDiameter`): starts from the first candidate and its
distance, and replaces it whenever a strictly smaller distance is found. -/
def roundToNearestStandardDiameter (diameterMm : ℚ) : ℚ :=
  let standardDiameters : List ℚ := [50, 75, 100, 125, 150]
  (standardDiameters.foldl
    (fun acc std => if |diameterMm - std| < acc.2 then (std, |diameterMm - std|) else acc)
    (50, |diameterMm - 50|)).1

namespace Calculator

/-- Current version's `calculateFgCorrectionFactor`: clamps the strength to
[15, 35] and snaps the diameter to the nearest standard diameter, then
bilinearly interpolates (strength axis first, then diameter axis). -/
def calculateFgCorrectionFactor (diameterMm strengthMPa : ℚ) : ℚ :=
  let clampedStrength := max 15 (min 35 strengthMPa)
  let clampedDiameter := roundToNearestStandardDiameter diameterMm
  let dLowerIdx := findLowerIdx FG_DIAMETER_POINTS clampedDiameter
  let dLower := FG_DIAMETER_POINTS.getD dLowerIdx 0
  let dUpper := FG_DIAMETER_POINTS.getD (dLowerIdx + 1) 0
  let sLowerIdx := findLowerIdx FG_STRENGTH_POINTS clampedStrength
  let sLower := FG_STRENGTH_POINTS.getD sLowerIdx 0
  let sUpper := FG_STRENGTH_POINTS.getD (sLowerIdx + 1) 0
  let fg_dLower_sLower := (FG_TABLE dLower).getD sLowerIdx 0
  let fg_dLower_sUpper := (FG_TABLE dLower).getD (sLowerIdx + 1) 0
  let fg_dUpper_sLower := (FG_TABLE dUpper).getD sLowerIdx 0
  let fg_dUpper_sUpper := (FG_TABLE dUpper).getD (sLowerIdx + 1) 0
  let fg_dLower := linearInterpolate clampedStrength sLower sUpper fg_dLower_sLower fg_dLower_sUpper
  let fg_dUpper := linearInterpolate clampedStrength sLower sUpper fg_dUpper_sLower fg_dUpper_sUpper
  linearInterpolate clampedDiameter dLower dUpper fg_dLower fg_dUpper

/-- The same lookup with the two interpolation passes exchanged (diameter
axis first at both bracketing strengths, then the strength axis); stated to
check axis-order invariance of the bilinear interpolation. -/
def calculateFgCorrectionFactorDiameterFirst (diameterMm strengthMPa : ℚ) : ℚ :=
  let clampedStrength := max 15 (min 35 strengthMPa)
  let clampedDiameter := roundToNearestStandardDiameter diameterMm
  let dLowerIdx := findLowerIdx FG_DIAMETER_POINTS clampedDiameter
  let dLower := FG_DIAMETER_POINTS.getD dLowerIdx 0
  let dUpper := FG_DIAMETER_POINTS.getD (dLowerIdx + 1) 0
  let sLowerIdx := findLowerIdx FG_STRENGTH_POINTS clampedStrength
  let sLower := FG_STRENGTH_POINTS.getD sLowerIdx 0
  let sUpper := FG_STRENGTH_POINTS.getD (sLowerIdx + 1) 0
  let fg_dLower_sLower := (FG_TABLE dLower).getD sLowerIdx 0
  let fg_dLower_sUpper := (FG_TABLE dLower).getD (sLowerIdx + 1) 0
  let fg_dUpper_sLower := (FG_TABLE dUpper).getD sLowerIdx 0
  let fg_dUpper_sUpper := (FG_TABLE dUpper).getD (sLowerIdx + 1) 0
  let fg_sLower := linearInterpolate clampedDiameter dLower dUpper fg_dLower_sLower fg_dUpper_sLower
  let fg_sUpper := linearInterpolate clampedDiameter dLower dUpper fg_dLower_sUpper fg_dUpper_sUpper
  linearInterpolate clampedStrength sLower sUpper fg_sLower fg_sUpper

end Calculator

namespace Legacy

/-- Legacy version's `calculateFgCorrectionFactor`: clamps the strength to
[15, 35] and the diameter to [50, 150] (no snapping), then bilinearly
interpolates (strength axis first, then diameter axis). -/
def calculateFgCorrectionFactor (diameterMm strengthMPa : ℚ) : ℚ :=
  let clampedStrength := max 15 (min 35 strengthMPa)
  let clampedDiameter := max 50 (min 150 diameterMm)
  let dLowerIdx := findLowerIdx FG_DIAMETER_POINTS clampedDiameter
  let dLower := FG_DIAMETER_POINTS.getD dLowerIdx 0
  let dUpper := FG_DIAMETER_POINTS.getD (dLowerIdx + 1) 0
  let sLowerIdx := findLowerIdx FG_STRENGTH_POINTS clampedStrength
  let sLower := FG_STRENGTH_POINTS.getD sLowerIdx 0
  let sUpper := FG_STRENGTH_POINTS.getD (sLowerIdx + 1) 0
  let fg_dLower_sLower := (FG_TABLE dLower).getD sLowerIdx 0
  let fg_dLower_sUpper := (FG_TABLE dLower).getD (sLowerIdx + 1) 0
  let fg_dUpper_sLower := (FG_TABLE dUpper).getD sLowerIdx 0
  let fg_dUpper_sUpper := (FG_TABLE dUpper).getD (sLowerIdx + 1) 0
  let fg_dLower := linearInterpolate clampedStrength sLower sUpper fg_dLower_sLower fg_dLower_sUpper
  let fg_dUpper := linearInterpolate clampedStrength sLower sUpper fg_dUpper_sLower fg_dUpper_sUpper
  linearInterpolate clampedDiameter dLower dUpper fg_dLower fg_dUpper

end Legacy

/-- The interpolation loop of `calculateLDCorrectionFactor`: scan adjacent
table entries in order and linearly interpolate inside the first bracketing
pair (breakpoints scaled by 10); falls through to the default 1.0. -/
def ldTableScan (scaled : ℚ) : List (ℚ × ℚ) → ℚ
  | lower :: upper :: rest =>
    if lower.1 * 10 ≤ scaled ∧ scaled ≤ upper.1 * 10 then
      lower.2 + (scaled - lower.1 * 10) * (upper.2 - lower.2) / (upper.1 * 10 - lower.1 * 10)
    else ldTableScan scaled (upper :: rest)
  | _ => 1.0

/-- `calculateLDCorrectionFactor`: multiplies the L/D ratio by 10 to match
the Excel scale, returns the first table factor at or below the first
breakpoint and the last factor at or above the last breakpoint, and
otherwise linearly interpolates between the bracketing table entries. -/
def calculateLDCorrectionFactor (ldRatioVal : ℚ) : ℚ :=
  let scaled := ldRatioVal * 10
  if scaled ≤ 15 then (LD_CORRECTION_TABLE.getD 0 (0, 0)).2
  else if 35 ≤ scaled then (LD_CORRECTION_TABLE.getD (LD_CORRECTION_TABLE.length - 1) (0, 0)).2
  else ldTableScan scaled LD_CORRECTION_TABLE

/-- `getMoistureCorrectionFactor`: exact lookup in the moisture table with
default 1.0 (`entry?.factor ?? 1.0`). -/
def getMoistureCorrectionFactor (condition : AggregateCondition) : ℚ :=
  (((MOISTURE_CORRECTION_TABLE.find? (fun m => decide (m.1 = condition))).map Prod.snd).getD 1.0)

/-- A reinforcement bar record: bar diameter (mm) and distance from the
nearer specimen end (mm). -/
structure ReinforcementBar where
  diameterMm : ℚ
  distanceFromEndMm : ℚ
deriving DecidableEq

/-- `calculateReinforcementCorrectionFactor`:
`1 + 1.5 * (sum of bar diameter * distance from end) / (diameter * length)`,
and exactly 1.0 for an absent or empty bar list. -/
def calculateReinforcementCorrectionFactor
    (reinforcement : Option (List ReinforcementBar)) (diameter length : ℚ) : ℚ :=
  match reinforcement with
  | none => 1.0
  | some bars =>
    if bars.length = 0 then 1.0
    else
      let sumProduct := bars.foldl (fun sum bar => sum + bar.diameterMm * bar.distanceFromEndMm) 0
      1 + (1.5 * sumProduct) / (diameter * length)

/-- `calculateDensity`: density in g/cm3 from weight in grams and
dimensions in mm (`weight * 1.2732 / d / d / L * 1000`). -/
def calculateDensity (weightGrams diameterMm lengthMm : ℚ) : ℚ :=
  weightGrams * 1.2732 / diameterMm / diameterMm / lengthMm * 1000

/-- `convertKNtoTons`: breaking load kN to tons (`loadKN / 10`). -/
def convertKNtoTons (loadKN : ℚ) : ℚ :=
  loadKN / 10

/-- `calculateCoreStrength`: core compressive strength in kg/cm2 from the
breaking load in tons and the diameter in mm. -/
def calculateCoreStrength (breakingLoadTons diameterMm : ℚ) : ℚ :=
  breakingLoadTons * 1000 * 1.2732 * 100 / (diameterMm * diameterMm)

/-- JavaScript truthiness of an optional numeric field (`undefined` and `0`
are falsy, every other number is truthy; `NaN` does not arise over ℚ). -/
def truthy : Option ℚ → Bool
  | some x => decide (x ≠ 0)
  | none => false

namespace Calculator

/-- Input record of the current `calculateCoreSample` (the fields the engine
reads): measured diameters and lengths, optional weight, breaking load,
moisture condition, coring direction factor and optional reinforcement. -/
structure CoreSampleInput where
  sampleNumber : ℕ
  diameters : List ℚ
  lengths : List ℚ
  weightGrams : Option ℚ
  breakingLoadKN : ℚ
  aggregateCondition : AggregateCondition
  directionFactor : ℚ
  reinforcement : Option (List ReinforcementBar)
deriving DecidableEq

/-- Result record of the current `calculateCoreSample`. -/
structure CoreSampleResult where
  sampleNumber : ℕ
  averageDiameter : ℚ
  averageLength : ℚ
  ldRatioVal : ℚ
  calculatedDensity : ℚ
  breakingLoadTons : ℚ
  coreStrength : ℚ
  moistureCorrectionFactor : ℚ
  cuttingCorrectionFactor : ℚ
  ldCorrectionFactor : ℚ
  reinforcementCorrectionFactor : ℚ
  equivalentCubeStrength : ℚ
  equivalentCubeStrengthMPa : ℚ
deriving DecidableEq

/-- Current version's `calculateCoreSample`: averages the measurements,
converts the load, derives the core strength, feeds `coreStrength / 10`
(the simplified MPa conversion) into the Fg lookup, and combines the
factors with the direction-factor component into the equivalent cube
strength. -/
def calculateCoreSample (input : CoreSampleInput) : CoreSampleResult :=
  let averageDiameter := input.diameters.foldl (· + ·) (0 : ℚ) / input.diameters.length
  let averageLength := input.lengths.foldl (· + ·) (0 : ℚ) / input.lengths.length
  let ldRatioVal := averageLength / averageDiameter
  let breakingLoadTons := convertKNtoTons input.breakingLoadKN
  let calculatedDensity :=
    if truthy input.weightGrams then
      calculateDensity (input.weightGrams.getD 0) averageDiameter averageLength
    else 2.4
  let directionFactor := input.directionFactor
  let coreStrength := calculateCoreStrength breakingLoadTons averageDiameter
  let coreStrengthMPa := coreStrength / 10
  let moistureCorrectionFactor := getMoistureCorrectionFactor input.aggregateCondition
  let cuttingCorrectionFactor := calculateFgCorrectionFactor averageDiameter coreStrengthMPa
  let ldCorrectionFactor := calculateLDCorrectionFactor ldRatioVal
  let reinforcementCorrectionFactor :=
    calculateReinforcementCorrectionFactor input.reinforcement averageDiameter averageLength
  let directionFactorComponent := directionFactor / (1.5 + averageDiameter / averageLength)
  let equivalentCubeStrength :=
    coreStrength * moistureCorrectionFactor * cuttingCorrectionFactor *
      directionFactorComponent * reinforcementCorrectionFactor
  let equivalentCubeStrengthMPa := equivalentCubeStrength * 0.0980665
  { sampleNumber := input.sampleNumber
    averageDiameter := averageDiameter
    averageLength := averageLength
    ldRatioVal := ldRatioVal
    calculatedDensity := calculatedDensity
    breakingLoadTons := breakingLoadTons
    coreStrength := coreStrength
    moistureCorrectionFactor := moistureCorrectionFactor
    cuttingCorrectionFactor := cuttingCorrectionFactor
    ldCorrectionFactor := ldCorrectionFactor
    reinforcementCorrectionFactor := reinforcementCorrectionFactor
    equivalentCubeStrength := equivalentCubeStrength
    equivalentCubeStrengthMPa := equivalentCubeStrengthMPa }

/-- Result record of the current `calculateBatch`. -/
structure BatchCalculationResult where
  results : List CoreSampleResult
  averageStrength : ℚ
  minimumStrength : ℚ
  maximumStrength : ℚ
  standardDeviation : ℚ

/-- Minimum of a spread list (`Math.min(...values)`); the claims only use
it on non-empty lists. -/
def listMin (values : List ℚ) : ℚ :=
  values.foldl min (values.headD 0)

/-- Maximum of a spread list (`Math.max(...values)`). -/
def listMax (values : List ℚ) : ℚ :=
  values.foldl max (values.headD 0)

/-- Current version's `calculateBatch`: per-sample results plus batch
statistics; the variance divides the sum of squared deviations by `n`
(population convention).  `sq` models `Math.sqrt`. -/
def calculateBatch (sq : ℚ → ℚ) (samples : List CoreSampleInput) : BatchCalculationResult :=
  let results := samples.map calculateCoreSample
  let strengths := results.map (·.equivalentCubeStrength)
  let n := strengths.length
  let averageStrength := strengths.foldl (· + ·) (0 : ℚ) / n
  let minimumStrength := listMin strengths
  let maximumStrength := listMax strengths
  let variance := strengths.foldl (fun sum s => sum + (s - averageStrength) ^ 2) (0 : ℚ) / n
  let standardDeviation := sq variance
  { results := results
    averageStrength := averageStrength
    minimumStrength := minimumStrength
    maximumStrength := maximumStrength
    standardDeviation := standardDeviation }

end Calculator

namespace Legacy

/-- Input record of the legacy `calculateCoreSample`: same measurements but
with an optional user-supplied density instead of a direction factor. -/
structure CoreSampleInput where
  sampleNumber : ℕ
  diameters : List ℚ
  lengths : List ℚ
  weightGrams : Option ℚ
  density : Option ℚ
  breakingLoadKN : ℚ
  aggregateCondition : AggregateCondition
  reinforcement : Option (List ReinforcementBar)
deriving DecidableEq

/-- Result record of the legacy `calculateCoreSample` (same shape as the
current one). -/
structure CoreSampleResult where
  sampleNumber : ℕ
  averageDiameter : ℚ
  averageLength : ℚ
  ldRatioVal : ℚ
  calculatedDensity : ℚ
  breakingLoadTons : ℚ
  coreStrength : ℚ
  moistureCorrectionFactor : ℚ
  cuttingCorrectionFactor : ℚ
  ldCorrectionFactor : ℚ
  reinforcementCorrectionFactor : ℚ
  equivalentCubeStrength : ℚ
  equivalentCubeStrengthMPa : ℚ
deriving DecidableEq

/-- Legacy `calculateCoreSample`: identical derivation except that the Fg
lookup is fed `coreStrength * 0.0980665` (the exact kg/cm2-to-MPa
conversion) and the final formula uses the density slot
(`input.density ?? calculatedDensity`) instead of a direction factor. -/
def calculateCoreSample (input : CoreSampleInput) : CoreSampleResult :=
  let averageDiameter := input.diameters.foldl (· + ·) (0 : ℚ) / input.diameters.length
  let averageLength := input.lengths.foldl (· + ·) (0 : ℚ) / input.lengths.length
  let ldRatioVal := averageLength / averageDiameter
  let breakingLoadTons := convertKNtoTons input.breakingLoadKN
  let calculatedDensity :=
    if truthy input.weightGrams then
      calculateDensity (input.weightGrams.getD 0) averageDiameter averageLength
    else if truthy input.density then input.density.getD 0
    else 2.4
  let densityForFormula := input.density.getD calculatedDensity
  let coreStrength := calculateCoreStrength breakingLoadTons averageDiameter
  let coreStrengthMPa := coreStrength * 0.0980665
  let moistureCorrectionFactor := getMoistureCorrectionFactor input.aggregateCondition
  let cuttingCorrectionFactor := calculateFgCorrectionFactor averageDiameter coreStrengthMPa
  let ldCorrectionFactor := calculateLDCorrectionFactor ldRatioVal
  let reinforcementCorrectionFactor :=
    calculateReinforcementCorrectionFactor input.reinforcement averageDiameter averageLength
  let densityFactor := densityForFormula / (1.5 + averageDiameter / averageLength)
  let equivalentCubeStrength :=
    coreStrength * moistureCorrectionFactor * cuttingCorrectionFactor *
      densityFactor * reinforcementCorrectionFactor
  let equivalentCubeStrengthMPa := equivalentCubeStrength * 0.0980665
  { sampleNumber := input.sampleNumber
    averageDiameter := averageDiameter
    averageLength := averageLength
    ldRatioVal := ldRatioVal
    calculatedDensity := calculatedDensity
    breakingLoadTons := breakingLoadTons
    coreStrength := coreStrength
    moistureCorrectionFactor := moistureCorrectionFactor
    cuttingCorrectionFactor := cuttingCorrectionFactor
    ldCorrectionFactor := ldCorrectionFactor
    reinforcementCorrectionFactor := reinforcementCorrectionFactor
    equivalentCubeStrength := equivalentCubeStrength
    equivalentCubeStrengthMPa := equivalentCubeStrengthMPa }

end Legacy

namespace Calculator

/-- Input record of a pull-off test specimen (the numeric fields the engine
reads; string metadata is dropped as it is passed through unchanged). -/
structure PullOffSampleInput where
  specimenNumber : ℕ
  diameterMm : ℚ
  failureLoadKN : ℚ
deriving DecidableEq

/-- Result record of `calculatePullOffSample`. -/
structure PullOffSampleResult where
  specimenNumber : ℕ
  diameterMm : ℚ
  failureLoadKN : ℚ
  failureLoadN : ℚ
  areaMm2 : ℚ
  tensileStrengthMPa : ℚ
deriving DecidableEq

/-- `calculateCircularArea`: `pi * (d/2)^2`; `pim` models `Math.PI`. -/
def calculateCircularArea (pim diameterMm : ℚ) : ℚ :=
  let radius := diameterMm / 2
  pim * radius * radius

/-- `calculateTensileStrength`: failure load (N) over the circular area. -/
def calculateTensileStrength (pim loadN diameterMm : ℚ) : ℚ :=
  let area := calculateCircularArea pim diameterMm
  loadN / area

/-- `calculatePullOffSample`: converts the load to newtons and derives the
area and tensile adhesion strength of one specimen. -/
def calculatePullOffSample (pim : ℚ) (input : PullOffSampleInput) : PullOffSampleResult :=
  let failureLoadN := input.failureLoadKN * 1000
  let areaMm2 := calculateCircularArea pim input.diameterMm
  let tensileStrengthMPa := calculateTensileStrength pim failureLoadN input.diameterMm
  { specimenNumber := input.specimenNumber
    diameterMm := input.diameterMm
    failureLoadKN := input.failureLoadKN
    failureLoadN := failureLoadN
    areaMm2 := areaMm2
    tensileStrengthMPa := tensileStrengthMPa }

/-- `calculateStandardDeviation` (pull-off module): sample standard
deviation with the sum of squared deviations divided by `n - 1`, guarded to
return 0 when fewer than two values are given.  `sq` models `Math.sqrt`. -/
def calculateStandardDeviation (sq : ℚ → ℚ) (values : List ℚ) : ℚ :=
  let n := values.length
  if n < 2 then 0
  else
    let mean := values.foldl (· + ·) (0 : ℚ) / n
    let squaredDiffs := values.map (fun v => (v - mean) ^ 2)
    let variance := squaredDiffs.foldl (· + ·) (0 : ℚ) / ((n : ℚ) - 1)
    sq variance

/-- Uncertainty budget of a pull-off batch (`PullOffUncertainty`). -/
structure PullOffUncertainty where
  diameterSD : ℚ
  averageDiameter : ℚ
  loadSD : ℚ
  averageLoad : ℚ
  averageStrength : ℚ
  uncertaintyRepeatabilityDiameter : ℚ
  uncertaintyCalibrationDiameter : ℚ
  uncertaintyResolutionDiameter : ℚ
  uncertaintyRepeatabilityLoad : ℚ
  uncertaintyCalibrationLoad : ℚ
  uncertaintyResolutionLoad : ℚ
  uncertaintyTypeA : ℚ
  uncertaintyTypeB : ℚ
  combinedUncertainty : ℚ
  expandedUncertainty : ℚ
deriving DecidableEq

/-- `calculatePullOffUncertainty`: GUM budget with sensitivity coefficients
`Cp = 4/(pi*D^2)` and `CD = -2*meanStrength/meanDiameter`, repeatability
`SD/sqrt 3`, fixed calibration and resolution components, Type A/Type B
combination and a fixed coverage factor of 2. -/
def calculatePullOffUncertainty (pim : ℚ) (sq : ℚ → ℚ)
    (results : List PullOffSampleResult) (diameters loads : List ℚ) : PullOffUncertainty :=
  let n := results.length
  let strengths := results.map (·.tensileStrengthMPa)
  let averageStrength := strengths.foldl (· + ·) (0 : ℚ) / n
  let averageDiameter := diameters.foldl (· + ·) (0 : ℚ) / diameters.length
  let averageLoad := loads.foldl (· + ·) (0 : ℚ) / loads.length
  let diameterSD := calculateStandardDeviation sq diameters
  let loadSD := calculateStandardDeviation sq loads
  let Cp := 4 / (pim * averageDiameter * averageDiameter)
  let CD := -2 * averageStrength / averageDiameter
  let uncertaintyRepeatabilityLoad := loadSD / sq 3
  let uncertaintyCalibrationLoad := 104.5 / 2
  let uncertaintyResolutionLoad := 50 / sq 3
  let uncertaintyRepeatabilityDiameter := diameterSD / sq 3
  let uncertaintyCalibrationDiameter := 0.007378583333333333 / 2
  let uncertaintyResolutionDiameter := 0.01 / sq 3
  let uLoadRep_contrib := uncertaintyRepeatabilityLoad * Cp
  let uLoadCal_contrib := uncertaintyCalibrationLoad * Cp
  let uLoadRes_contrib := uncertaintyResolutionLoad * Cp
  let uDiamRep_contrib := uncertaintyRepeatabilityDiameter * |CD|
  let uDiamCal_contrib := uncertaintyCalibrationDiameter * |CD|
  let uDiamRes_contrib := uncertaintyResolutionDiameter * |CD|
  let uncertaintyTypeA := sq (uLoadRep_contrib ^ 2 + uDiamRep_contrib ^ 2)
  let uncertaintyTypeB :=
    sq (uLoadCal_contrib ^ 2 + uLoadRes_contrib ^ 2 + uDiamCal_contrib ^ 2 + uDiamRes_contrib ^ 2)
  let combinedUncertainty := sq (uncertaintyTypeA ^ 2 + uncertaintyTypeB ^ 2)
  let expandedUncertainty := 2 * combinedUncertainty
  { diameterSD := diameterSD
    averageDiameter := averageDiameter
    loadSD := loadSD
    averageLoad := averageLoad
    averageStrength := averageStrength
    uncertaintyRepeatabilityDiameter := uncertaintyRepeatabilityDiameter
    uncertaintyCalibrationDiameter := uncertaintyCalibrationDiameter
    uncertaintyResolutionDiameter := uncertaintyResolutionDiameter
    uncertaintyRepeatabilityLoad := uncertaintyRepeatabilityLoad
    uncertaintyCalibrationLoad := uncertaintyCalibrationLoad
    uncertaintyResolutionLoad := uncertaintyResolutionLoad
    uncertaintyTypeA := uncertaintyTypeA
    uncertaintyTypeB := uncertaintyTypeB
    combinedUncertainty := combinedUncertainty
    expandedUncertainty := expandedUncertainty }

/-- Result record of `calculatePullOffBatch`. -/
structure PullOffBatchResult where
  results : List PullOffSampleResult
  averageStrength : ℚ
  averageLoadKN : ℚ
  minimumStrength : ℚ
  maximumStrength : ℚ
  standardDeviation : ℚ
  coefficientOfVariation : ℚ
  uncertainty : PullOffUncertainty
  expandedUncertaintyMPa : ℚ
deriving DecidableEq

/-- `calculatePullOffBatch`: per-specimen results, batch statistics over
the strength series, and the coefficient of variation computed from the
load series (`SD(loads)/AVG(loads)*100`). -/
def calculatePullOffBatch (pim : ℚ) (sq : ℚ → ℚ)
    (specimens : List PullOffSampleInput) : PullOffBatchResult :=
  let results := specimens.map (calculatePullOffSample pim)
  let strengths := results.map (·.tensileStrengthMPa)
  let diameters := specimens.map (·.diameterMm)
  let loadsKN := specimens.map (·.failureLoadKN)
  let loadsN := specimens.map (fun s => s.failureLoadKN * 1000)
  let n := strengths.length
  let averageStrength := strengths.foldl (· + ·) (0 : ℚ) / n
  let minimumStrength := listMin strengths
  let maximumStrength := listMax strengths
  let averageLoadKN := loadsKN.foldl (· + ·) (0 : ℚ) / n
  let loadSD := calculateStandardDeviation sq loadsKN
  let coefficientOfVariation := loadSD / averageLoadKN * 100
  let standardDeviation := calculateStandardDeviation sq strengths
  let uncertainty := calculatePullOffUncertainty pim sq results diameters loadsN
  { results := results
    averageStrength := averageStrength
    averageLoadKN := averageLoadKN
    minimumStrength := minimumStrength
    maximumStrength := maximumStrength
    standardDeviation := standardDeviation
    coefficientOfVariation := coefficientOfVariation
    uncertainty := uncertainty
    expandedUncertaintyMPa := uncertainty.expandedUncertainty }

/-- Insert a value into an ascending sorted list (helper for the numeric
sort used by `calculateMedian`). -/
def insertSorted (x : ℚ) : List ℚ → List ℚ
  | [] => [x]
  | y :: ys => if x ≤ y then x :: y :: ys else y :: insertSorted x ys

/-- Ascending numeric sort, modelling `[...values].sort((a, b) => a - b)`:
a stable insertion sort producing the ascending rearrangement. -/
def sortReadings (values : List ℚ) : List ℚ :=
  values.foldr insertSorted []

/-- `calculateMedian`: sort ascending and take the middle element, or the
average of the two middle elements for an even-length list. -/
def calculateMedian (values : List ℚ) : ℚ :=
  let sorted := sortReadings values
  let mid := sorted.length / 2
  if sorted.length % 2 = 0 then (sorted.getD (mid - 1) 0 + sorted.getD mid 0) / 2
  else sorted.getD mid 0

/-- Anvil calibration readings taken before and after the test series
(`SchmidtHammerAnvilInput`). -/
structure SchmidtHammerAnvilInput where
  readingsBefore : List ℚ
  readingsAfter : List ℚ
deriving DecidableEq

/-- Return value of `calculateAnvilCorrectionFactor`: the RSA factor and
the pooled anvil median. -/
structure AnvilCorrectionResult where
  rsa : ℚ
  median : ℚ
deriving DecidableEq

/-- `calculateAnvilCorrectionFactor`: pools the before and after readings,
takes their median and returns `RSA = 80 / median` together with the
(unrounded) median. -/
def calculateAnvilCorrectionFactor (anvilInput : SchmidtHammerAnvilInput) :
    AnvilCorrectionResult :=
  let allReadings := anvilInput.readingsBefore ++ anvilInput.readingsAfter
  let median := calculateMedian allReadings
  let rsa := 80 / median
  { rsa := rsa, median := median }

/-- Uncertainty budget of one Schmidt-hammer element
(`SchmidtHammerUncertainty`). -/
structure SchmidtHammerUncertainty where
  repeatabilityUncertainty : ℚ
  resolutionUncertainty : ℚ
  calibrationUncertainty : ℚ
  combinedUncertainty : ℚ
  coverageFactor : ℚ
  expandedUncertainty : ℚ
deriving DecidableEq

/-- `calculateSchmidtHammerUncertainty`: repeatability `sqrt(SD^2/n)`,
resolution `1/sqrt 3`, calibration `0.0266/2`, combined by quadrature and
expanded with the fixed coverage factor 2.  The Welch-Satterthwaite
effective degrees of freedom are computed in the source but do not feed
the returned record; they are kept here under underscore names. -/
def calculateSchmidtHammerUncertainty (sq : ℚ → ℚ)
    (correctedReadings : List ℚ) : SchmidtHammerUncertainty :=
  let n := correctedReadings.length
  let mean := correctedReadings.foldl (· + ·) (0 : ℚ) / n
  let squaredDiffs := correctedReadings.map (fun v => (v - mean) ^ 2)
  let variance := squaredDiffs.foldl (· + ·) (0 : ℚ) / ((n : ℚ) - 1)
  let sd := sq variance
  let repeatabilityUncertainty := sq (sd ^ 2 / n)
  let resolutionUncertainty := 1 / sq 3
  let calibrationUncertainty := 0.0266 / 2
  let combinedUncertaintySquared :=
    repeatabilityUncertainty ^ 2 + resolutionUncertainty ^ 2 + calibrationUncertainty ^ 2
  let combinedUncertainty := sq combinedUncertaintySquared
  let _effectiveDof :=
    combinedUncertainty ^ 4 / (repeatabilityUncertainty ^ 4 / ((n : ℚ) - 1))
  let coverageFactor : ℚ := 2
  let expandedUncertainty := coverageFactor * combinedUncertainty
  { repeatabilityUncertainty := repeatabilityUncertainty
    resolutionUncertainty := resolutionUncertainty
    calibrationUncertainty := calibrationUncertainty
    combinedUncertainty := combinedUncertainty
    coverageFactor := coverageFactor
    expandedUncertainty := expandedUncertainty }

/-- Input record of one Schmidt-hammer element
(`SchmidtHammerElementInput`, numeric and name fields the engine reads). -/
structure SchmidtHammerElementInput where
  elementName : String
  readings : List ℚ
deriving DecidableEq

/-- Result record of `calculateSchmidtHammerElement`. -/
structure SchmidtHammerElementResult where
  elementName : String
  originalReadings : List ℚ
  correctedReadings : List ℚ
  medianRebound : ℚ
  lowerLimit : ℚ
  upperLimit : ℚ
  validReadingsCount : ℕ
  standardDeviation : ℚ
  uncertainty : SchmidtHammerUncertainty
  expandedUncertainty : ℚ
  approximateStrengthKgCm2 : ℚ
deriving DecidableEq

/-- `calculateSchmidtHammerElement`: applies the RSA correction to every
reading, rounds the median of the corrected readings to an integer rebound
number, counts the corrected readings inside the inclusive acceptance band
`[0.75*median, 1.25*median]`, and derives the sample standard deviation and
the uncertainty budget. -/
def calculateSchmidtHammerElement (sq : ℚ → ℚ)
    (element : SchmidtHammerElementInput) (rsa : ℚ) : SchmidtHammerElementResult :=
  let correctedReadings := element.readings.map (fun r => r * rsa)
  let medianRebound : ℚ := (round (calculateMedian correctedReadings) : ℤ)
  let lowerLimit := medianRebound * 0.75
  let upperLimit := medianRebound * 1.25
  let validReadingsCount :=
    (correctedReadings.filter (fun r => decide (lowerLimit ≤ r) && decide (r ≤ upperLimit))).length
  let n := correctedReadings.length
  let mean := correctedReadings.foldl (· + ·) (0 : ℚ) / n
  let squaredDiffs := correctedReadings.map (fun v => (v - mean) ^ 2)
  let variance := squaredDiffs.foldl (· + ·) (0 : ℚ) / ((n : ℚ) - 1)
  let standardDeviation := sq variance
  let uncertainty := calculateSchmidtHammerUncertainty sq correctedReadings
  let approximateStrengthKgCm2 := medianRebound * 11.5
  { elementName := element.elementName
    originalReadings := element.readings
    correctedReadings := correctedReadings
    medianRebound := medianRebound
    lowerLimit := lowerLimit
    upperLimit := upperLimit
    validReadingsCount := validReadingsCount
    standardDeviation := standardDeviation
    uncertainty := uncertainty
    expandedUncertainty := uncertainty.expandedUncertainty
    approximateStrengthKgCm2 := approximateStrengthKgCm2 }

end Calculator

/-! Spec-side statistics formulations.  These are written from the
specification's words (mean, population variance with divisor `n`, sample
variance with divisor `n - 1`) and are related to the engine embeddings by
the claim theorems. -/

/-- Arithmetic mean of a list of values, per the specification. -/
def specMean (values : List ℚ) : ℚ :=
  values.sum / values.length

/-- Population variance: sum of squared deviations from the mean divided
by `n`, per the specification of the core-test batch statistics. -/
def specPopVariance (values : List ℚ) : ℚ :=
  ((values.map (fun v => (v - specMean values) ^ 2)).sum) / values.length

/-- Sample variance: sum of squared deviations from the mean divided by
`n - 1`, per the specification of the pull-off and Schmidt modules. -/
def specSampleVariance (values : List ℚ) : ℚ :=
  ((values.map (fun v => (v - specMean values) ^ 2)).sum) / ((values.length : ℚ) - 1)

/-- Sample standard deviation guarded to 0 for fewer than two values, per
the specification; `sq` models `Math.sqrt`. -/
def specSampleStdDev (sq : ℚ → ℚ) (values : List ℚ) : ℚ :=
  if values.length < 2 then 0 else sq (specSampleVariance values)

/-! Helper lemmas. -/

/-- A left fold of addition is the initial value plus the list sum. -/
theorem foldl_add_eq_sum (l : List ℚ) (a : ℚ) : l.foldl (· + ·) a = a + l.sum := by
  induction l generalizing a with
  | nil => simp
  | cons x xs ih => simp [List.foldl_cons, ih, List.sum_cons]; ring

/-- A left fold accumulating `f` over a list is the initial value plus the
sum of the mapped list. -/
theorem foldl_add_map_eq_sum (f : ℚ → ℚ) (l : List ℚ) (a : ℚ) :
    l.foldl (fun sum s => sum + f s) a = a + (l.map f).sum := by
  induction l generalizing a with
  | nil => simp
  | cons x xs ih => simp [List.foldl_cons, ih, List.sum_cons]; ring

/-- Bilinear interpolation is invariant to the order of the two axis
passes: interpolating along `y` at both bracketing `x` values and then
along `x` agrees with the opposite order, for arbitrary corner values. -/
theorem bilinear_axis_order_comm (x x1 x2 y y1 y2 a b c e : ℚ) :
    linearInterpolate x x1 x2 (linearInterpolate y y1 y2 a b) (linearInterpolate y y1 y2 c e)
      = linearInterpolate y y1 y2 (linearInterpolate x x1 x2 a c) (linearInterpolate x x1 x2 b e) := by
  unfold linearInterpolate
  ring

/-- A linear interpolation between two values stays inside any interval
containing both of them, when the query point lies inside the bracketing
interval. -/
theorem linearInterpolate_bounds (x x1 x2 y1 y2 lo hi : ℚ)
    (hx1 : x1 ≤ x) (hx2 : x ≤ x2) (hxlt : x1 < x2)
    (h1a : lo ≤ y1) (h1b : y1 ≤ hi) (h2a : lo ≤ y2) (h2b : y2 ≤ hi) :
    lo ≤ linearInterpolate x x1 x2 y1 y2 ∧ linearInterpolate x x1 x2 y1 y2 ≤ hi := by
  have key : linearInterpolate x x1 x2 y1 y2 = y1 + (x - x1) / (x2 - x1) * (y2 - y1) := by
    unfold linearInterpolate; ring
  have hd : (0 : ℚ) < x2 - x1 := by linarith
  have ht0 : 0 ≤ (x - x1) / (x2 - x1) := div_nonneg (by linarith) (le_of_lt hd)
  have ht1 : (x - x1) / (x2 - x1) ≤ 1 := by
    rw [div_le_one hd]; linarith
  rcases le_total y1 y2 with hy | hy
  · have hnn : 0 ≤ (x - x1) / (x2 - x1) * (y2 - y1) := mul_nonneg ht0 (by linarith)
    have hub : (x - x1) / (x2 - x1) * (y2 - y1) ≤ y2 - y1 :=
      mul_le_of_le_one_left (by linarith) ht1
    constructor <;> [skip; skip] <;> rw [key] <;> linarith
  · have hnp : (x - x1) / (x2 - x1) * (y2 - y1) ≤ 0 :=
      mul_nonpos_of_nonneg_of_nonpos ht0 (by linarith)
    have hlb : y2 - y1 ≤ (x - x1) / (x2 - x1) * (y2 - y1) := by
      have := mul_le_of_le_one_left (b := y1 - y2) (by linarith) ht1
      nlinarith
    constructor <;> rw [key] <;> linarith

/-- The nearest-standard-diameter snap always lands on one of the five
standard diameters. -/
theorem roundToNearestStandardDiameter_mem (d : ℚ) :
    roundToNearestStandardDiameter d = 50 ∨ roundToNearestStandardDiameter d = 75 ∨
    roundToNearestStandardDiameter d = 100 ∨ roundToNearestStandardDiameter d = 125 ∨
    roundToNearestStandardDiameter d = 150 := by
  unfold roundToNearestStandardDiameter
  simp only [List.foldl]
  split_ifs <;> norm_num

/-- Characterization of the strength-interval search on the Fg strength
breakpoints for any clamped strength in [15, 35]: the index found by the
source's loop together with the bracketing inequalities. -/
theorem findLowerIdx_strength (cs : ℚ) (h1 : 15 ≤ cs) (h2 : cs ≤ 35) :
    (findLowerIdx FG_STRENGTH_POINTS cs = 0 ∧ 15 ≤ cs ∧ cs ≤ 20) ∨
    (findLowerIdx FG_STRENGTH_POINTS cs = 1 ∧ 20 ≤ cs ∧ cs ≤ 25) ∨
    (findLowerIdx FG_STRENGTH_POINTS cs = 2 ∧ 25 ≤ cs ∧ cs ≤ 30) ∨
    (findLowerIdx FG_STRENGTH_POINTS cs = 3 ∧ 30 ≤ cs ∧ cs ≤ 35) := by
  have hexpr : findLowerIdx FG_STRENGTH_POINTS cs =
      if (35 : ℚ) ≤ cs then 3 else
      if (15 : ℚ) ≤ cs ∧ cs ≤ 20 then 0 else
      if (20 : ℚ) ≤ cs ∧ cs ≤ 25 then 1 else
      if (25 : ℚ) ≤ cs ∧ cs ≤ 30 then 2 else
      if (30 : ℚ) ≤ cs ∧ cs ≤ 35 then 3 else 0 := rfl
  rw [hexpr]
  split_ifs with o c1 c2 c3 c4
  · right; right; right; exact ⟨rfl, by linarith, h2⟩
  · left; exact ⟨rfl, c1⟩
  · right; left; exact ⟨rfl, c2⟩
  · right; right; left; exact ⟨rfl, c3⟩
  · right; right; right; exact ⟨rfl, c4⟩
  · exfalso
    push_neg at c1 c2 c3 c4
    have g1 : 20 < cs := c1 h1
    have g2 : 25 < cs := c2 (by linarith)
    have g3 : 30 < cs := c3 (by linarith)
    have g4 : 35 < cs := c4 (by linarith)
    linarith

set_option maxHeartbeats 3000000 in
/-- C5: the Fg bilinear lookup gives the same result whichever axis is
interpolated first, and returns the exact grid entry at each of the 25
lattice nodes of the 5 x 5 (diameter, strength) grid. -/
theorem claim5_fg_bilinear_axis_order_and_lattice :
    (∀ d s : ℚ, Calculator.calculateFgCorrectionFactor d s
        = Calculator.calculateFgCorrectionFactorDiameterFirst d s) ∧
    (∀ i j : Fin 5,
      Calculator.calculateFgCorrectionFactor
          (FG_DIAMETER_POINTS.getD i.val 0) (FG_STRENGTH_POINTS.getD j.val 0)
        = (FG_TABLE (FG_DIAMETER_POINTS.getD i.val 0)).getD j.val 0) := by
  constructor
  · intro d s
    simp only [Calculator.calculateFgCorrectionFactor,
      Calculator.calculateFgCorrectionFactorDiameterFirst]
    apply bilinear_axis_order_comm
  · intro i j
    fin_cases i <;> fin_cases j <;>
      norm_num [Calculator.calculateFgCorrectionFactor, roundToNearestStandardDiameter,
        List.foldl, findLowerIdx, findLowerIdxLoop, FG_DIAMETER_POINTS, FG_STRENGTH_POINTS,
        FG_TABLE, List.getD, linearInterpolate]

set_option maxHeartbeats 3000000 in
/-- C10: for every diameter and strength input, the Fg lookup of the
current calculator stays within [1.02, 1.18], the extreme entries of the
Fg grid. -/
theorem claim10_fg_factor_range (d s : ℚ) :
    1.02 ≤ Calculator.calculateFgCorrectionFactor d s ∧
    Calculator.calculateFgCorrectionFactor d s ≤ 1.18 := by
  have d50 : findLowerIdx FG_DIAMETER_POINTS 50 = 0 := by
    norm_num [findLowerIdx, findLowerIdxLoop, FG_DIAMETER_POINTS, List.getD]
  have d75 : findLowerIdx FG_DIAMETER_POINTS 75 = 0 := by
    norm_num [findLowerIdx, findLowerIdxLoop, FG_DIAMETER_POINTS, List.getD]
  have d100 : findLowerIdx FG_DIAMETER_POINTS 100 = 1 := by
    norm_num [findLowerIdx, findLowerIdxLoop, FG_DIAMETER_POINTS, List.getD]
  have d125 : findLowerIdx FG_DIAMETER_POINTS 125 = 2 := by
    norm_num [findLowerIdx, findLowerIdxLoop, FG_DIAMETER_POINTS, List.getD]
  have d150 : findLowerIdx FG_DIAMETER_POINTS 150 = 3 := by
    norm_num [findLowerIdx, findLowerIdxLoop, FG_DIAMETER_POINTS, List.getD]
  have hcs1 : (15 : ℚ) ≤ max 15 (min 35 s) := le_max_left _ _
  have hcs2 : max 15 (min 35 s) ≤ 35 := max_le (by norm_num) (min_le_left _ _)
  rcases findLowerIdx_strength _ hcs1 hcs2 with
      ⟨hi, hs1, hs2⟩ | ⟨hi, hs1, hs2⟩ | ⟨hi, hs1, hs2⟩ | ⟨hi, hs1, hs2⟩ <;>
    rcases roundToNearestStandardDiameter_mem d with hd | hd | hd | hd | hd <;>
    (simp only [Calculator.calculateFgCorrectionFactor, hd, hi, d50, d75, d100, d125, d150]
     norm_num [FG_DIAMETER_POINTS, FG_STRENGTH_POINTS, FG_TABLE, List.getD]
     exact linearInterpolate_bounds _ _ _ _ _ _ _ (by norm_num) (by norm_num) (by norm_num)
      (linearInterpolate_bounds _ _ _ _ _ (51/50) (59/50) hs1 hs2 (by norm_num) (by norm_num)
        (by norm_num) (by norm_num) (by norm_num)).1
      (linearInterpolate_bounds _ _ _ _ _ (51/50) (59/50) hs1 hs2 (by norm_num) (by norm_num)
        (by norm_num) (by norm_num) (by norm_num)).2
      (linearInterpolate_bounds _ _ _ _ _ (51/50) (59/50) hs1 hs2 (by norm_num) (by norm_num)
        (by norm_num) (by norm_num) (by norm_num)).1
      (linearInterpolate_bounds _ _ _ _ _ (51/50) (59/50) hs1 hs2 (by norm_num) (by norm_num)
        (by norm_num) (by norm_num) (by norm_num)).2)

/-- C2 (amended): the current Fg lookup equals the continuous clamped
bilinear lookup (the legacy function) applied to the diameter snapped to
the nearest standard diameter; the diameter is snapped, not used raw. -/
theorem claim2_amended_fg_snaps_diameter (d s : ℚ) :
    Calculator.calculateFgCorrectionFactor d s
      = Legacy.calculateFgCorrectionFactor (roundToNearestStandardDiameter d) s := by
  rcases roundToNearestStandardDiameter_mem d with hd | hd | hd | hd | hd <;>
    (simp only [Calculator.calculateFgCorrectionFactor, Legacy.calculateFgCorrectionFactor, hd]
     norm_num)

/-- C2 (counterexample): at diameter 60 mm and strength 15 MPa the current
lookup snaps to 50 mm and returns 1.18, while the raw-clamped continuous
interpolation claimed by the specification returns 1.168. -/
theorem claim2_counterexample_fg_snap_at_60 :
    Calculator.calculateFgCorrectionFactor 60 15 = 1.18 ∧
    Legacy.calculateFgCorrectionFactor 60 15 = 1.168 ∧
    Calculator.calculateFgCorrectionFactor 60 15 ≠ Legacy.calculateFgCorrectionFactor 60 15 := by
  refine ⟨?_, ?_, ?_⟩ <;>
    norm_num [Calculator.calculateFgCorrectionFactor, Legacy.calculateFgCorrectionFactor,
      roundToNearestStandardDiameter, List.foldl, findLowerIdx, findLowerIdxLoop,
      FG_DIAMETER_POINTS, FG_STRENGTH_POINTS, FG_TABLE, List.getD, linearInterpolate]

/-- C1 (amended): in the current calculator the strength fed into the Fg
lookup is `coreStrength / 10` (the simplified Excel conversion), while the
exact conversion `coreStrength * 0.0980665` is used only by the legacy
density-variant calculator. -/
theorem claim1_amended_mpa_conversion (input : Calculator.CoreSampleInput)
    (legacyInput : Legacy.CoreSampleInput) :
    (Calculator.calculateCoreSample input).cuttingCorrectionFactor
      = Calculator.calculateFgCorrectionFactor
          (Calculator.calculateCoreSample input).averageDiameter
          ((Calculator.calculateCoreSample input).coreStrength / 10)
    ∧ (Legacy.calculateCoreSample legacyInput).cuttingCorrectionFactor
      = Legacy.calculateFgCorrectionFactor
          (Legacy.calculateCoreSample legacyInput).averageDiameter
          ((Legacy.calculateCoreSample legacyInput).coreStrength * 0.0980665) :=
  ⟨rfl, rfl⟩

/-- Concrete core sample used to falsify C1: average diameter 100 mm and a
load giving core strength 199.8924 kg/cm2, so the two MPa conversions land
at different points of the same Fg grid cell. -/
def sampleC1 : Calculator.CoreSampleInput :=
  { sampleNumber := 1
    diameters := [100, 100]
    lengths := [150, 150]
    weightGrams := none
    breakingLoadKN := 157
    aggregateCondition := .natural
    directionFactor := 2.5
    reinforcement := none }

set_option maxHeartbeats 1000000 in
/-- C1 (counterexample): for `sampleC1` the cutting factor actually
computed differs from the cutting factor that the exact 0.0980665
conversion would give, so the engine does not feed
`coreStrength * 0.0980665` into the Fg lookup. -/
theorem claim1_counterexample_exact_conversion :
    (Calculator.calculateCoreSample sampleC1).cuttingCorrectionFactor
      ≠ Calculator.calculateFgCorrectionFactor
          (Calculator.calculateCoreSample sampleC1).averageDiameter
          ((Calculator.calculateCoreSample sampleC1).coreStrength * 0.0980665) := by
  norm_num [sampleC1, Calculator.calculateCoreSample, Calculator.calculateFgCorrectionFactor,
    convertKNtoTons, calculateCoreStrength, getMoistureCorrectionFactor,
    MOISTURE_CORRECTION_TABLE, List.find?, truthy, calculateDensity,
    calculateReinforcementCorrectionFactor, calculateLDCorrectionFactor, ldTableScan,
    LD_CORRECTION_TABLE, roundToNearestStandardDiameter, List.foldl, findLowerIdx,
    findLowerIdxLoop, FG_DIAMETER_POINTS, FG_STRENGTH_POINTS, FG_TABLE, List.getD,
    linearInterpolate]

/-- C3: the equivalent cube strength is the product
`coreStrength * Fm * Fg * (directionFactor / (1.5 + D/L)) * reinforcementFactor`;
the L/D correction factor is computed from the L/D ratio and exposed in the
result but does not occur in that formula. -/
theorem claim3_equivalent_cube_strength_formula (input : Calculator.CoreSampleInput) :
    (Calculator.calculateCoreSample input).equivalentCubeStrength
      = (Calculator.calculateCoreSample input).coreStrength
        * (Calculator.calculateCoreSample input).moistureCorrectionFactor
        * (Calculator.calculateCoreSample input).cuttingCorrectionFactor
        * (input.directionFactor
            / (1.5 + (Calculator.calculateCoreSample input).averageDiameter
                / (Calculator.calculateCoreSample input).averageLength))
        * (Calculator.calculateCoreSample input).reinforcementCorrectionFactor
    ∧ (Calculator.calculateCoreSample input).ldCorrectionFactor
      = calculateLDCorrectionFactor
          ((Calculator.calculateCoreSample input).averageLength
            / (Calculator.calculateCoreSample input).averageDiameter) :=
  ⟨rfl, rfl⟩

/-- Unfolded form of `calculateLDCorrectionFactor` as a chain of
conditionals over the scaled key, used to analyse the branches. -/
theorem calculateLDCorrectionFactor_eq (ld : ℚ) :
    calculateLDCorrectionFactor ld =
      if ld * 10 ≤ 15 then 1.07 else
      if 35 ≤ ld * 10 then 1.02 else
      if 1.5 * 10 ≤ ld * 10 ∧ ld * 10 ≤ 2.0 * 10 then
        1.07 + (ld * 10 - 1.5 * 10) * (1.05 - 1.07) / (2.0 * 10 - 1.5 * 10) else
      if 2.0 * 10 ≤ ld * 10 ∧ ld * 10 ≤ 2.5 * 10 then
        1.05 + (ld * 10 - 2.0 * 10) * (1.04 - 1.05) / (2.5 * 10 - 2.0 * 10) else
      if 2.5 * 10 ≤ ld * 10 ∧ ld * 10 ≤ 3.0 * 10 then
        1.04 + (ld * 10 - 2.5 * 10) * (1.03 - 1.04) / (3.0 * 10 - 2.5 * 10) else
      if 3.0 * 10 ≤ ld * 10 ∧ ld * 10 ≤ 3.5 * 10 then
        1.03 + (ld * 10 - 3.0 * 10) * (1.02 - 1.03) / (3.5 * 10 - 3.0 * 10) else
      1.0 := rfl

/-- C4: the L/D correction lookup on the scaled key `ldRatio * 10` clamps
to the first factor 1.07 at or below the first breakpoint and to the last
factor 1.02 at or above the last breakpoint, returns the exact table
factor at every breakpoint, and linearly interpolates between the
bracketing table entries in between. -/
theorem claim4_ld_correction_factor_spec (ld : ℚ) :
    (ld * 10 ≤ 15 → calculateLDCorrectionFactor ld = 1.07) ∧
    (35 ≤ ld * 10 → calculateLDCorrectionFactor ld = 1.02) ∧
    (calculateLDCorrectionFactor 1.5 = 1.07 ∧ calculateLDCorrectionFactor 2 = 1.05 ∧
      calculateLDCorrectionFactor 2.5 = 1.04 ∧ calculateLDCorrectionFactor 3 = 1.03 ∧
      calculateLDCorrectionFactor 3.5 = 1.02) ∧
    (15 ≤ ld * 10 ∧ ld * 10 ≤ 20 →
      calculateLDCorrectionFactor ld = 1.07 + (ld * 10 - 15) * (1.05 - 1.07) / (20 - 15)) ∧
    (20 ≤ ld * 10 ∧ ld * 10 ≤ 25 →
      calculateLDCorrectionFactor ld = 1.05 + (ld * 10 - 20) * (1.04 - 1.05) / (25 - 20)) ∧
    (25 ≤ ld * 10 ∧ ld * 10 ≤ 30 →
      calculateLDCorrectionFactor ld = 1.04 + (ld * 10 - 25) * (1.03 - 1.04) / (30 - 25)) ∧
    (30 ≤ ld * 10 ∧ ld * 10 ≤ 35 →
      calculateLDCorrectionFactor ld = 1.03 + (ld * 10 - 30) * (1.02 - 1.03) / (35 - 30)) := by
  refine ⟨?_, ?_, ?_, ?_, ?_, ?_, ?_⟩
  · intro h
    rw [calculateLDCorrectionFactor_eq, if_pos h]
  · intro h
    rw [calculateLDCorrectionFactor_eq, if_neg (by intro hc; linarith), if_pos h]
  · refine ⟨?_, ?_, ?_, ?_, ?_⟩ <;>
      norm_num [calculateLDCorrectionFactor, ldTableScan, LD_CORRECTION_TABLE, List.getD]
  · rintro ⟨h1, h2⟩
    rw [calculateLDCorrectionFactor_eq]
    by_cases g : ld * 10 ≤ 15
    · rw [if_pos g, show ld * 10 = 15 from le_antisymm g h1]
      norm_num
    · rw [if_neg g, if_neg (by intro hc; linarith),
        if_pos ⟨by linarith, by linarith⟩]
      norm_num
  · rintro ⟨h1, h2⟩
    rw [calculateLDCorrectionFactor_eq, if_neg (by intro hc; linarith),
      if_neg (by intro hc; linarith)]
    by_cases g : ld * 10 ≤ 20
    · rw [if_pos ⟨by linarith, by linarith⟩, show ld * 10 = 20 from le_antisymm g h1]
      norm_num
    · rw [if_neg (by intro hc; have := hc.2; linarith),
        if_pos ⟨by linarith, by linarith⟩]
      norm_num
  · rintro ⟨h1, h2⟩
    rw [calculateLDCorrectionFactor_eq, if_neg (by intro hc; linarith),
      if_neg (by intro hc; linarith),
      if_neg (by intro hc; have := hc.2; linarith)]
    by_cases g : ld * 10 ≤ 25
    · rw [if_pos ⟨by linarith, by linarith⟩, show ld * 10 = 25 from le_antisymm g h1]
      norm_num
    · rw [if_neg (by intro hc; have := hc.2; linarith),
        if_pos ⟨by linarith, by linarith⟩]
      norm_num
  · rintro ⟨h1, h2⟩
    rw [calculateLDCorrectionFactor_eq, if_neg (by intro hc; linarith)]
    by_cases gtop : 35 ≤ ld * 10
    · rw [if_pos gtop, show ld * 10 = 35 from le_antisymm h2 gtop]
      norm_num
    · rw [if_neg gtop,
        if_neg (by intro hc; have := hc.2; linarith),
        if_neg (by intro hc; have := hc.2; linarith)]
      by_cases g : ld * 10 ≤ 30
      · rw [if_pos ⟨by linarith, by linarith⟩, show ld * 10 = 30 from le_antisymm g h1]
        norm_num
      · rw [if_neg (by intro hc; have := hc.2; linarith),
          if_pos ⟨by linarith, by linarith⟩]
        norm_num

/-- C4 (witness): at L/D ratio 1.7 the scaled key 17 lies strictly inside
the first interval and the lookup returns the interpolated value. -/
theorem claim4_witness :
    ((1 : ℚ) * 10 ≤ 15 ∧ calculateLDCorrectionFactor 1 = 1.07) ∧
    ((15 ≤ (1.7 : ℚ) * 10 ∧ (1.7 : ℚ) * 10 ≤ 20) ∧
      calculateLDCorrectionFactor 1.7
        = 1.07 + ((1.7 : ℚ) * 10 - 15) * (1.05 - 1.07) / (20 - 15)) :=
  ⟨⟨by norm_num, (claim4_ld_correction_factor_spec 1).1 (by norm_num)⟩,
   ⟨⟨by norm_num, by norm_num⟩,
    (claim4_ld_correction_factor_spec 1.7).2.2.2.1 ⟨by norm_num, by norm_num⟩⟩⟩

/-- A left fold accumulating squared deviations is the sum of the mapped
squared deviations. -/
theorem foldl_sq_dev_eq_sum (l : List ℚ) (m : ℚ) :
    l.foldl (fun sum s => sum + (s - m) ^ 2) (0 : ℚ) = (l.map (fun v => (v - m) ^ 2)).sum := by
  rw [foldl_add_map_eq_sum (fun v => (v - m) ^ 2)]
  ring

/-- The pull-off module's standard deviation coincides with the spec-side
guarded sample standard deviation. -/
theorem calculateStandardDeviation_eq_spec (sq : ℚ → ℚ) (values : List ℚ) :
    Calculator.calculateStandardDeviation sq values = specSampleStdDev sq values := by
  simp only [Calculator.calculateStandardDeviation, specSampleStdDev, specSampleVariance,
    specMean, foldl_add_eq_sum, zero_add]

/-- Inserting into a sorted list grows its length by one. -/
theorem length_insertSorted (x : ℚ) (l : List ℚ) :
    (Calculator.insertSorted x l).length = l.length + 1 := by
  induction l with
  | nil => simp [Calculator.insertSorted]
  | cons y ys ih =>
    simp only [Calculator.insertSorted]
    split_ifs <;> simp [ih]

/-- The ascending sort preserves the length of the list. -/
theorem length_sortReadings (l : List ℚ) :
    (Calculator.sortReadings l).length = l.length := by
  induction l with
  | nil => rfl
  | cons x xs ih =>
    show (Calculator.insertSorted x (Calculator.sortReadings xs)).length = xs.length + 1
    rw [length_insertSorted, ih]

/-- C6: the anvil correction factor is `80 / median(before ++ after)` with
the pooled median (the average of the two middle elements of the sorted
sequence for an even pooled length) used unrounded, while integer rounding
appears only in the displayed `medianRebound` of an element's corrected
readings. -/
theorem claim6_anvil_rsa (before after : List ℚ)
    (e : Calculator.SchmidtHammerElementInput) (rsa : ℚ) (sq : ℚ → ℚ) (l : List ℚ)
    (hb : 5 ≤ before.length) (ha : 5 ≤ after.length) (heven : l.length % 2 = 0) :
    (Calculator.calculateAnvilCorrectionFactor ⟨before, after⟩).rsa
        = 80 / Calculator.calculateMedian (before ++ after)
    ∧ (Calculator.calculateAnvilCorrectionFactor ⟨before, after⟩).median
        = Calculator.calculateMedian (before ++ after)
    ∧ Calculator.calculateMedian l
        = ((Calculator.sortReadings l).getD (l.length / 2 - 1) 0
            + (Calculator.sortReadings l).getD (l.length / 2) 0) / 2
    ∧ (Calculator.calculateSchmidtHammerElement sq e rsa).medianRebound
        = ((round (Calculator.calculateMedian (e.readings.map (fun r => r * rsa))) : ℤ) : ℚ) := by
  refine ⟨rfl, rfl, ?_, rfl⟩
  simp only [Calculator.calculateMedian, length_sortReadings]
  rw [if_pos heven]

/-- C6 (witness): the reference anvil fixture, pooled median 82 and
RSA 80/82. -/
theorem claim6_witness :
    (5 ≤ ([81, 83, 84, 84, 83] : List ℚ).length ∧ 5 ≤ ([80, 80, 82, 82, 81] : List ℚ).length ∧
      ([40, 42, 41, 43] : List ℚ).length % 2 = 0) ∧
    ((Calculator.calculateAnvilCorrectionFactor ⟨[81, 83, 84, 84, 83], [80, 80, 82, 82, 81]⟩).rsa
        = 80 / Calculator.calculateMedian (([81, 83, 84, 84, 83] : List ℚ) ++ [80, 80, 82, 82, 81])
    ∧ (Calculator.calculateAnvilCorrectionFactor ⟨[81, 83, 84, 84, 83], [80, 80, 82, 82, 81]⟩).median
        = Calculator.calculateMedian (([81, 83, 84, 84, 83] : List ℚ) ++ [80, 80, 82, 82, 81])
    ∧ Calculator.calculateMedian ([40, 42, 41, 43] : List ℚ)
        = ((Calculator.sortReadings ([40, 42, 41, 43] : List ℚ)).getD
              (([40, 42, 41, 43] : List ℚ).length / 2 - 1) 0
            + (Calculator.sortReadings ([40, 42, 41, 43] : List ℚ)).getD
                (([40, 42, 41, 43] : List ℚ).length / 2) 0) / 2
    ∧ (Calculator.calculateSchmidtHammerElement (fun x => x) ⟨"E1", [30, 32, 31]⟩ 1).medianRebound
        = ((round (Calculator.calculateMedian (([30, 32, 31] : List ℚ).map (fun r => r * 1))) : ℤ) : ℚ)) :=
  ⟨⟨by norm_num, by norm_num, by norm_num⟩,
   claim6_anvil_rsa [81, 83, 84, 84, 83] [80, 80, 82, 82, 81] ⟨"E1", [30, 32, 31]⟩ 1 (fun x => x)
     [40, 42, 41, 43] (by norm_num) (by norm_num) (by norm_num)⟩

/-- C7: the pull-off batch coefficient of variation is the sample standard
deviation of the failure-load series divided by the mean load, times 100;
the strength series feeds only the separate `standardDeviation` field. -/
theorem claim7_pull_off_cv_from_loads (pim : ℚ) (sq : ℚ → ℚ)
    (specimens : List Calculator.PullOffSampleInput) (h2 : 2 ≤ specimens.length) :
    (Calculator.calculatePullOffBatch pim sq specimens).coefficientOfVariation
      = specSampleStdDev sq (specimens.map (·.failureLoadKN))
          / specMean (specimens.map (·.failureLoadKN)) * 100
    ∧ (Calculator.calculatePullOffBatch pim sq specimens).standardDeviation
      = specSampleStdDev sq
          ((specimens.map (Calculator.calculatePullOffSample pim)).map (·.tensileStrengthMPa)) := by
  constructor <;>
    simp only [Calculator.calculatePullOffBatch, calculateStandardDeviation_eq_spec,
      List.length_map, foldl_add_eq_sum, zero_add, specMean]

/-- C7 (witness): a two-specimen batch satisfying the size hypothesis. -/
theorem claim7_witness :
    2 ≤ ([⟨1, 55, 3.63⟩, ⟨2, 55, 2.87⟩] : List Calculator.PullOffSampleInput).length ∧
    ((Calculator.calculatePullOffBatch 3.14 (fun x => x)
          [⟨1, 55, 3.63⟩, ⟨2, 55, 2.87⟩]).coefficientOfVariation
        = specSampleStdDev (fun x => x)
            (([⟨1, 55, 3.63⟩, ⟨2, 55, 2.87⟩] : List Calculator.PullOffSampleInput).map
              (·.failureLoadKN))
            / specMean
                (([⟨1, 55, 3.63⟩, ⟨2, 55, 2.87⟩] : List Calculator.PullOffSampleInput).map
                  (·.failureLoadKN)) * 100
    ∧ (Calculator.calculatePullOffBatch 3.14 (fun x => x)
          [⟨1, 55, 3.63⟩, ⟨2, 55, 2.87⟩]).standardDeviation
        = specSampleStdDev (fun x => x)
            ((([⟨1, 55, 3.63⟩, ⟨2, 55, 2.87⟩] : List Calculator.PullOffSampleInput).map
              (Calculator.calculatePullOffSample 3.14)).map (·.tensileStrengthMPa))) :=
  ⟨by norm_num,
   claim7_pull_off_cv_from_loads 3.14 (fun x => x) [⟨1, 55, 3.63⟩, ⟨2, 55, 2.87⟩] (by norm_num)⟩

/-- C8: the standard-deviation convention differs per module: the core-test
batch uses the population formula (divisor `n`, hence 0 for a one-sample
batch), while the pull-off module (guarded to 0 for fewer than two values)
and the Schmidt element use the sample formula (divisor `n - 1`). -/
theorem claim8_std_dev_conventions (sq : ℚ → ℚ) (pim : ℚ)
    (samples : List Calculator.CoreSampleInput) (single : Calculator.CoreSampleInput)
    (values : List ℚ) (specimens : List Calculator.PullOffSampleInput)
    (e : Calculator.SchmidtHammerElementInput) (rsa : ℚ)
    (hzero : sq 0 = 0) (hne : samples ≠ []) :
    (Calculator.calculateBatch sq samples).standardDeviation
        = sq (specPopVariance
            ((samples.map Calculator.calculateCoreSample).map (·.equivalentCubeStrength)))
    ∧ (Calculator.calculateBatch sq [single]).standardDeviation = 0
    ∧ Calculator.calculateStandardDeviation sq values = specSampleStdDev sq values
    ∧ (Calculator.calculatePullOffBatch pim sq specimens).standardDeviation
        = specSampleStdDev sq
            ((specimens.map (Calculator.calculatePullOffSample pim)).map (·.tensileStrengthMPa))
    ∧ (Calculator.calculateSchmidtHammerElement sq e rsa).standardDeviation
        = sq (specSampleVariance (e.readings.map (fun r => r * rsa))) := by
  refine ⟨?_, ?_, calculateStandardDeviation_eq_spec sq values, ?_, ?_⟩
  · simp only [Calculator.calculateBatch, specPopVariance, specMean, foldl_add_eq_sum,
      zero_add, foldl_sq_dev_eq_sum]
  · simp [Calculator.calculateBatch, List.foldl, hzero]
  · simp only [Calculator.calculatePullOffBatch, calculateStandardDeviation_eq_spec]
  · simp only [Calculator.calculateSchmidtHammerElement, specSampleVariance, specMean,
      foldl_add_eq_sum, zero_add]

/-- C8 (witness): the hypotheses hold for the identity square root model
and a one-element batch list. -/
theorem claim8_witness :
    ((fun x : ℚ => x) 0 = 0 ∧ ([sampleC1] : List Calculator.CoreSampleInput) ≠ []) ∧
    ((Calculator.calculateBatch (fun x : ℚ => x) [sampleC1]).standardDeviation
        = (fun x : ℚ => x) (specPopVariance
            (([sampleC1].map Calculator.calculateCoreSample).map (·.equivalentCubeStrength)))
    ∧ (Calculator.calculateBatch (fun x : ℚ => x) [sampleC1]).standardDeviation = 0
    ∧ Calculator.calculateStandardDeviation (fun x : ℚ => x) [4, 6]
        = specSampleStdDev (fun x : ℚ => x) [4, 6]
    ∧ (Calculator.calculatePullOffBatch 3.14 (fun x : ℚ => x)
          [⟨1, 55, 3.63⟩]).standardDeviation
        = specSampleStdDev (fun x : ℚ => x)
            ((([⟨1, 55, 3.63⟩] : List Calculator.PullOffSampleInput).map
              (Calculator.calculatePullOffSample 3.14)).map (·.tensileStrengthMPa))
    ∧ (Calculator.calculateSchmidtHammerElement (fun x : ℚ => x) ⟨"E1", [30, 32, 31]⟩ 1).standardDeviation
        = (fun x : ℚ => x) (specSampleVariance (([30, 32, 31] : List ℚ).map (fun r => r * 1)))) :=
  ⟨⟨rfl, by simp⟩,
   claim8_std_dev_conventions (fun x : ℚ => x) 3.14 [sampleC1] sampleC1 [4, 6]
     [⟨1, 55, 3.63⟩] ⟨"E1", [30, 32, 31]⟩ 1 rfl (by simp)⟩

/-- C9: the valid-readings count of a Schmidt element is the number of
corrected readings inside the inclusive band
`[0.75 * medianRebound, 1.25 * medianRebound]`; it never exceeds the total
number of readings and equals it when every corrected reading lies in the
band. -/
theorem claim9_schmidt_valid_readings (sq : ℚ → ℚ)
    (e : Calculator.SchmidtHammerElementInput) (rsa : ℚ) :
    (Calculator.calculateSchmidtHammerElement sq e rsa).validReadingsCount
      = (e.readings.map (fun r => r * rsa)).countP
          (fun r => decide
            (0.75 * (Calculator.calculateSchmidtHammerElement sq e rsa).medianRebound ≤ r ∧
             r ≤ 1.25 * (Calculator.calculateSchmidtHammerElement sq e rsa).medianRebound))
    ∧ (Calculator.calculateSchmidtHammerElement sq e rsa).validReadingsCount ≤ e.readings.length
    ∧ ((∀ r ∈ (Calculator.calculateSchmidtHammerElement sq e rsa).correctedReadings,
          0.75 * (Calculator.calculateSchmidtHammerElement sq e rsa).medianRebound ≤ r ∧
          r ≤ 1.25 * (Calculator.calculateSchmidtHammerElement sq e rsa).medianRebound) →
        (Calculator.calculateSchmidtHammerElement sq e rsa).validReadingsCount
          = e.readings.length) := by
  have hcorr : (Calculator.calculateSchmidtHammerElement sq e rsa).correctedReadings
      = e.readings.map (fun r => r * rsa) := rfl
  have hmed : (Calculator.calculateSchmidtHammerElement sq e rsa).medianRebound
      = ((round (Calculator.calculateMedian (e.readings.map (fun r => r * rsa))) : ℤ) : ℚ) := rfl
  have hcount : (Calculator.calculateSchmidtHammerElement sq e rsa).validReadingsCount
      = ((e.readings.map (fun r => r * rsa)).filter
          (fun r =>
            decide ((Calculator.calculateSchmidtHammerElement sq e rsa).medianRebound * 0.75 ≤ r)
            && decide (r ≤ (Calculator.calculateSchmidtHammerElement sq e rsa).medianRebound * 1.25))).length := rfl
  refine ⟨?_, ?_, ?_⟩
  · rw [hcount, List.countP_eq_length_filter]
    refine congrArg List.length (List.filter_congr ?_)
    intro r hr
    rw [Bool.decide_and, mul_comm (0.75 : ℚ), mul_comm (1.25 : ℚ)]
  · rw [hcount]
    exact le_trans (List.length_filter_le _ _) (le_of_eq (List.length_map _ _))
  · intro hall
    rw [hcount, List.filter_eq_self.mpr, List.length_map]
    intro a ha
    obtain ⟨h1, h2⟩ := hall a (by rw [hcorr]; exact ha)
    rw [mul_comm] at h1 h2
    simp [h1, h2]

/-- C9 (witness): with RSA 1 and readings 30, 32, 31 the rounded median is
31, every corrected reading lies in the band [23.25, 38.75], and the count
equals the total. -/
theorem claim9_witness :
    (∀ r ∈ (Calculator.calculateSchmidtHammerElement (fun x => x)
        ⟨"E1", [30, 32, 31]⟩ 1).correctedReadings,
      0.75 * (Calculator.calculateSchmidtHammerElement (fun x => x)
          ⟨"E1", [30, 32, 31]⟩ 1).medianRebound ≤ r ∧
      r ≤ 1.25 * (Calculator.calculateSchmidtHammerElement (fun x => x)
          ⟨"E1", [30, 32, 31]⟩ 1).medianRebound) ∧
    (Calculator.calculateSchmidtHammerElement (fun x => x)
        ⟨"E1", [30, 32, 31]⟩ 1).validReadingsCount
      = ([30, 32, 31] : List ℚ).length := by
  have hall : ∀ r ∈ (Calculator.calculateSchmidtHammerElement (fun x => x)
      ⟨"E1", [30, 32, 31]⟩ 1).correctedReadings,
      0.75 * (Calculator.calculateSchmidtHammerElement (fun x => x)
          ⟨"E1", [30, 32, 31]⟩ 1).medianRebound ≤ r ∧
      r ≤ 1.25 * (Calculator.calculateSchmidtHammerElement (fun x => x)
          ⟨"E1", [30, 32, 31]⟩ 1).medianRebound := by
    intro r hr
    have hm : (Calculator.calculateSchmidtHammerElement (fun x => x)
        ⟨"E1", [30, 32, 31]⟩ 1).medianRebound = 31 := by
      norm_num [Calculator.calculateSchmidtHammerElement, Calculator.calculateMedian,
        Calculator.sortReadings, Calculator.insertSorted, List.foldr, List.getD, round_eq]
    have hc : (Calculator.calculateSchmidtHammerElement (fun x => x)
        ⟨"E1", [30, 32, 31]⟩ 1).correctedReadings = [30, 32, 31] := by
      norm_num [Calculator.calculateSchmidtHammerElement]
    rw [hm]
    rw [hc] at hr
    fin_cases hr <;> norm_num
  exact ⟨hall,
    (claim9_schmidt_valid_readings (fun x => x) ⟨"E1", [30, 32, 31]⟩ 1).2.2 hall⟩

end ConcreteCore
